import Mathlib

/-!
Shallow embedding of the VL6180X register-access driver (Rust) in Lean 4.

The embedding translates the source files under src/ directly:
machine integers become Nat (bytes are Fin 256, arithmetic carried out on
.val with explicit wrapping where the Rust type would wrap), fallible code
returns Except, and the I2C bus transport (an external collaborator of the
driver) is modelled as an oracle together with an explicit trace of the bus
operations a call performs.
-/

set_option maxRecDepth 8192

deriving instance DecidableEq for Except

/-- A byte value, as carried on the bus and in register payloads. -/
abbrev Byte := Fin 256

/-- Error type of src/types.rs (RegisterError): the unified codec error. -/
inductive RegisterError where
  | InvalidEnumValue (raw : Nat)
  | DurationTooShort
  | DurationTooLong
  | InvalidTimestamp
deriving DecidableEq, Repr

/-- Error surface of the regiface transaction layer, as used by
src/device.rs (regiface errors Error). -/
inductive RegifaceError where
  | BusError
  | SerializationError
  | DeserializationError
deriving DecidableEq, Repr

/-! ## Start-mode registers (src/registers/als.rs AlsStart, range.rs RangeStart) -/

/-- ALS Start Register value (src/registers/als.rs, register 0x0038). -/
inductive AlsStart where
  | SingleShot
  | Continuous
deriving DecidableEq, Repr

/-- AlsStart::from_bytes — src/registers/als.rs lines 28-34. The error type
in the source is Infallible, so the embedding is a total function. -/
def AlsStart.fromBytes (b : Byte) : AlsStart :=
  if b.val = 0x01 then .SingleShot
  else if b.val = 0x03 then .Continuous
  else .SingleShot

/-- AlsStart::to_bytes — src/registers/als.rs lines 41-47. -/
def AlsStart.toBytes : AlsStart → Byte
  | .SingleShot => (0x01 : Fin 256)
  | .Continuous => (0x03 : Fin 256)

/-- Range Start Register value (src/registers/range.rs, register 0x0018). -/
inductive RangeStart where
  | SingleShot
  | Continuous
deriving DecidableEq, Repr

/-- RangeStart::from_bytes — src/registers/range.rs lines 28-34. -/
def RangeStart.fromBytes (b : Byte) : RangeStart :=
  if b.val = 0x01 then .SingleShot
  else if b.val = 0x03 then .Continuous
  else .SingleShot

/-- RangeStart::to_bytes — src/registers/range.rs lines 41-47. -/
def RangeStart.toBytes : RangeStart → Byte
  | .SingleShot => (0x01 : Fin 256)
  | .Continuous => (0x03 : Fin 256)

/-! ## Range Check Enables (src/registers/range.rs, register 0x002D) -/

/-- RangeCheckEnables bit-flag register value. -/
structure RangeCheckEnables where
  enable_snr_check : Bool
  enable_range_check : Bool
  enable_early_convergence_check : Bool
deriving DecidableEq, Repr

/-- RangeCheckEnables::from_bytes — src/registers/range.rs lines 271-277:
bit 0x01 is the SNR check, 0x02 the range check, 0x04 the early-convergence
check. -/
def RangeCheckEnables.fromBytes (b : Byte) : RangeCheckEnables where
  enable_snr_check := b.val &&& 0x01 ≠ 0
  enable_range_check := b.val &&& 0x02 ≠ 0
  enable_early_convergence_check := b.val &&& 0x04 ≠ 0

/-- RangeCheckEnables::to_bytes — src/registers/range.rs lines 284-296. -/
def RangeCheckEnables.toBytes (v : RangeCheckEnables) : Byte :=
  let n0 : Nat := if v.enable_snr_check then 0x01 else 0
  let n1 : Nat := if v.enable_range_check then n0 ||| 0x02 else n0
  let n2 : Nat := if v.enable_early_convergence_check then n1 ||| 0x04 else n1
  Fin.ofNat n2

/-! ## ALS analogue gain (src/types.rs AlsGain, src/registers/als.rs) -/

/-- AlsGain — src/types.rs lines 158-176. -/
inductive AlsGain where
  | Gain20
  | Gain10
  | Gain5
  | Gain2_5
  | Gain1_67
  | Gain1_25
  | Gain1
  | Gain40
deriving DecidableEq, Repr

/-- TryFrom of u8 for AlsGain — src/types.rs lines 181-193: the source
matches on value AND 0b111 and has an InvalidEnumValue arm for the
remaining (unreachable) patterns. -/
def AlsGain.tryFrom (value : Byte) : Except RegisterError AlsGain :=
  match value.val &&& 0b111 with
  | 0 => .ok .Gain20
  | 1 => .ok .Gain10
  | 2 => .ok .Gain5
  | 3 => .ok .Gain2_5
  | 4 => .ok .Gain1_67
  | 5 => .ok .Gain1_25
  | 6 => .ok .Gain1
  | 7 => .ok .Gain40
  | _ => .error (.InvalidEnumValue value.val)

/-- AlsAnalogueGain::from_bytes — src/registers/als.rs lines 157-160. -/
def AlsAnalogueGain.fromBytes (b : Byte) : Except RegisterError AlsGain :=
  match AlsGain.tryFrom b with
  | .error e => .error e
  | .ok gain => .ok gain

/-! ## Duration-valued registers

The Rust value types are core time Duration (unsigned, read back through
as_millis as u64) and jiff Span (signed, read back through
get_milliseconds as i64). The embedding carries the millisecond count
directly: Nat for Duration, Int for Span. -/

/-- AlsIntermeasurementPeriod::from_bytes — src/registers/als.rs lines
113-118: the stored byte v denotes (v + 1) * 10 milliseconds. -/
def AlsIntermeasurementPeriod.fromBytes (b : Byte) : Nat :=
  (b.val + 1) * 10

/-- AlsIntermeasurementPeriod::to_bytes — src/registers/als.rs lines
125-139: rejects periods below 10 ms and above 2560 ms, otherwise stores
((ms + 5) / 10) - 1, cast as u8. -/
def AlsIntermeasurementPeriod.toBytes (ms : Nat) : Except RegisterError Byte :=
  if ms < 10 then .error .DurationTooShort
  else if ms > 2560 then .error .DurationTooLong
  else .ok (Fin.ofNat ((ms + 5) / 10 - 1))

/-- RangeIntermeasurementPeriod::from_bytes — src/registers/range.rs lines
109-114. -/
def RangeIntermeasurementPeriod.fromBytes (b : Byte) : Int :=
  ((b.val : Int) + 1) * 10

/-- RangeIntermeasurementPeriod::to_bytes — src/registers/range.rs lines
121-126: computes ((ms / 10) - 1).max(0).min(255) with i64 arithmetic
(division truncating toward zero) and casts to u8; it cannot fail. -/
def RangeIntermeasurementPeriod.toBytes (ms : Int) : Byte :=
  Fin.ofNat (Int.toNat (min (max (Int.tdiv ms 10 - 1) 0) 255))

/-- RangeMaxConvergenceTime::from_bytes — src/registers/range.rs lines
144-147. -/
def RangeMaxConvergenceTime.fromBytes (b : Byte) : Int :=
  (b.val : Int)

/-- RangeMaxConvergenceTime::to_bytes — src/registers/range.rs lines
154-157: clamps the millisecond count into 1..=63 and casts to u8; it
cannot fail. -/
def RangeMaxConvergenceTime.toBytes (ms : Int) : Byte :=
  Fin.ofNat (Int.toNat (min (max ms 1) 63))

/-! ## Range result status (src/types.rs RangeErrorCode, src/registers/result.rs) -/

/-- RangeErrorCode — src/types.rs lines 88-117, the defined values of
Table 12 of the datasheet (9 and 10 are absent). -/
inductive RangeErrorCode where
  | NoError
  | VcselContinuityTest
  | VcselWatchdogTest
  | VcselWatchdog
  | Pll1Lock
  | Pll2Lock
  | EarlyConvergenceEstimate
  | MaxConvergence
  | NoTargetIgnore
  | SignalToNoiseRatio
  | RawRangingUnderflow
  | RawRangingOverflow
  | RangingUnderflow
  | RangingOverflow
deriving DecidableEq, Repr

/-- TryFrom of u8 for RangeErrorCode — src/types.rs lines 122-140. -/
def RangeErrorCode.tryFrom (value : Nat) : Except RegisterError RangeErrorCode :=
  match value with
  | 0 => .ok .NoError
  | 1 => .ok .VcselContinuityTest
  | 2 => .ok .VcselWatchdogTest
  | 3 => .ok .VcselWatchdog
  | 4 => .ok .Pll1Lock
  | 5 => .ok .Pll2Lock
  | 6 => .ok .EarlyConvergenceEstimate
  | 7 => .ok .MaxConvergence
  | 8 => .ok .NoTargetIgnore
  | 11 => .ok .SignalToNoiseRatio
  | 12 => .ok .RawRangingUnderflow
  | 13 => .ok .RawRangingOverflow
  | 14 => .ok .RangingUnderflow
  | 15 => .ok .RangingOverflow
  | _ => .error (.InvalidEnumValue value)

/-- RangeResultStatus register value (src/registers/result.rs, 0x004D). -/
structure RangeResultStatus where
  error_code : RangeErrorCode
  device_ready : Bool
deriving DecidableEq, Repr

/-- RangeResultStatus::from_bytes — src/registers/result.rs lines 51-59:
the error code lives in the high nibble, bit 0 is device-ready; the
declared error type of this impl is the unit type, so the question-mark
conversion collapses the InvalidEnumValue detail to unit. -/
def RangeResultStatus.fromBytes (b : Byte) : Except Unit RangeResultStatus :=
  match RangeErrorCode.tryFrom ((b.val >>> 4) &&& 0x0F) with
  | .error _ => .error ()
  | .ok error_code => .ok { error_code, device_ready := b.val &&& 0x01 ≠ 0 }

/-! ## Manufacturing timestamp (src/registers/identification.rs, 0x0006) -/

/-- A civil calendar date-time, the shape of the jiff civil DateTime the
driver constructs (subsecond is always zero here). -/
structure CivilDateTime where
  year : Int
  month : Int
  day : Int
  hour : Int
  minute : Int
  second : Int
deriving DecidableEq, Repr

/-- Modelled from the documented contract of the external jiff crate:
Gregorian leap-year rule used by civil-date validation. -/
def isLeapYear (y : Int) : Bool :=
  (y % 4 == 0 && y % 100 != 0) || y % 400 == 0

/-- Modelled from the documented contract of the external jiff crate:
number of days in a civil month. -/
def daysInMonth (y m : Int) : Int :=
  if m = 2 then (if isLeapYear y then 29 else 28)
  else if m = 4 ∨ m = 6 ∨ m = 9 ∨ m = 11 then 30
  else 31

/-- Modelled from the documented contract of the external jiff crate:
civil DateTime construction validates every component (year in
-9999..=9999, month 1..=12, day against the month length, time fields in
range) and fails otherwise. The driver converts the jiff error to
RegisterError InvalidTimestamp (src/types.rs lines 34-38). -/
def dateTimeNew (y mo d h mi s : Int) : Except RegisterError CivilDateTime :=
  if -9999 ≤ y ∧ y ≤ 9999 ∧ 1 ≤ mo ∧ mo ≤ 12 ∧ 1 ≤ d ∧ d ≤ daysInMonth y mo
      ∧ 0 ≤ h ∧ h ≤ 23 ∧ 0 ≤ mi ∧ mi ≤ 59 ∧ 0 ≤ s ∧ s ≤ 59 then
    .ok ⟨y, mo, d, h, mi, s⟩
  else
    .error .InvalidTimestamp

/-- The 16-bit time value of the timestamp payload — src/registers/
identification.rs line 119: (time_hi << 8) | time_lo. -/
def ModuleTimestamp.timeValue (b2 b3 : Byte) : Nat :=
  b2.val * 256 + b3.val

/-- Whether the u16 multiplication time_value * 2 at src/registers/
identification.rs line 127 exceeds the u16 range: the source performs it
at type u16, so these inputs overflow (panic under overflow checks,
wraparound otherwise). -/
def ModuleTimestamp.tickDoublingOverflows (b2 b3 : Byte) : Bool :=
  decide (65535 < ModuleTimestamp.timeValue b2 b3 * 2)

/-- ModuleTimestamp::from_bytes — src/registers/identification.rs lines
111-136, with the u16 doubling of line 127 given Rust release-profile
wraparound semantics (reduction modulo 2^16); the separate
tickDoublingOverflows predicate records where that reduction is an
overflow. -/
def ModuleTimestamp.fromBytes (b0 b1 b2 b3 : Byte) : Except RegisterError CivilDateTime :=
  let time_value := ModuleTimestamp.timeValue b2 b3
  let year : Int := 2010 + ((b0.val >>> 4 : Nat) : Int)
  let month : Int := ((b0.val &&& 0x0F : Nat) : Int)
  let day : Int := ((b1.val >>> 3 : Nat) : Int)
  let seconds_since_midnight : Nat := (time_value * 2) % 65536
  let hour : Int := ((seconds_since_midnight / 3600 : Nat) : Int)
  let minute : Int := ((seconds_since_midnight % 3600 / 60 : Nat) : Int)
  let second : Int := ((seconds_since_midnight % 60 : Nat) : Int)
  dateTimeNew year month day hour minute second

/-! ## Transaction engine (src/device.rs)

read_register and write_register are generic over the register type R,
which supplies a 16-bit address (regiface id), a fixed payload length and
the codec. The embedding keeps that genericity: a register is a record of
address, payload length and codec functions over arbitrary value and
codec-error types. The I2C transport (external collaborator, embedded-hal)
is an oracle giving the outcome of each primitive; each engine call also
returns the exact list of bus operations it performed, so that claims
about bus activity (one exchange, zero calls on encode failure) are
statements about that trace. -/

/-- One bus operation as issued by the engine: either one
write-then-read exchange (peripheral address, bytes written, number of
bytes read) or one transaction of consecutive write frames. -/
inductive BusOp where
  | writeRead (addr : Nat) (out : List Byte) (readLen : Nat)
  | transact (addr : Nat) (frames : List (List Byte))
deriving DecidableEq, Repr

/-- Outcome oracle for the transport primitives of the embedded-hal I2c
trait used in src/device.rs: write_read returns the bytes read (or a
transport fault, collapsed to unit as the engine discards its detail), and
transaction either succeeds or faults. -/
structure I2cModel where
  write_read : Nat → List Byte → Nat → Except Unit (List Byte)
  transaction : Nat → List (List Byte) → Except Unit Unit

/-- A readable register interface as consumed by Device::read_register:
regiface id (u16), fixed payload length, and from_bytes over an arbitrary
value type V and codec-error type E. -/
structure ReadableReg (V E : Type) where
  id : Nat
  len : Nat
  from_bytes : List Byte → Except E V

/-- A writable register interface as consumed by Device::write_register. -/
structure WritableReg (V E : Type) where
  id : Nat
  to_bytes : V → Except E (List Byte)

/-- u16::to_be_bytes — the 2-byte big-endian address frame of every
transaction (src/device.rs lines 65 and 90). -/
def u16BeBytes (n : Nat) : List Byte :=
  [Fin.ofNat (n / 256), Fin.ofNat n]

/-- The device wrapper: an I2C peripheral address (default 0x29). -/
structure Device where
  address : Nat

/-- Device::read_register — src/device.rs lines 61-73: one write-then-read
exchange of the big-endian address frame reading the register's payload
length, then decode; a transport fault becomes BusError, a decode failure
becomes DeserializationError. The second component is the trace of bus
operations performed. -/
def Device.read_register {V E : Type} (d : Device) (R : ReadableReg V E)
    (i2c : I2cModel) : Except RegifaceError V × List BusOp :=
  let reg_addr := u16BeBytes R.id
  let op := BusOp.writeRead d.address reg_addr R.len
  match i2c.write_read d.address reg_addr R.len with
  | .error _ => (.error .BusError, [op])
  | .ok buf =>
    match R.from_bytes buf with
    | .error _ => (.error .DeserializationError, [op])
    | .ok v => (.ok v, [op])

/-- Device::write_register — src/device.rs lines 86-104: encode first
(SerializationError on failure, before any bus access), then one
transaction of two consecutive write frames, address then payload;
a transport fault becomes BusError. The second component is the trace of
bus operations performed. -/
def Device.write_register {V E : Type} (d : Device) (R : WritableReg V E)
    (value : V) (i2c : I2cModel) : Except RegifaceError Unit × List BusOp :=
  let reg_addr := u16BeBytes R.id
  match R.to_bytes value with
  | .error _ => (.error .SerializationError, [])
  | .ok payload =>
    let op := BusOp.transact d.address [reg_addr, payload]
    match i2c.transaction d.address [reg_addr, payload] with
    | .error _ => (.error .BusError, [op])
    | .ok _ => (.ok (), [op])

/-! ## Theorems -/

/-- Whether an Except value is a success; used to state totality of
fallible decoders. -/
def exceptOk {E V : Type} : Except E V → Bool
  | .ok _ => true
  | .error _ => false

/-- C8: for every byte, decoding a start-mode register (AlsStart or
RangeStart) never fails: 0x01 decodes to the single-shot variant, 0x03 to
the continuous variant, and every other byte (0x00 included) falls back to
the single-shot variant. The source decoders have the uninhabited
Infallible error type, so the embedding is total by construction; the
characterization below pins the byte mapping. -/
theorem startMode_decode_fallback :
    AlsStart.fromBytes (0x01 : Fin 256) = .SingleShot
    ∧ AlsStart.fromBytes (0x03 : Fin 256) = .Continuous
    ∧ RangeStart.fromBytes (0x01 : Fin 256) = .SingleShot
    ∧ RangeStart.fromBytes (0x03 : Fin 256) = .Continuous
    ∧ AlsStart.fromBytes (0x00 : Fin 256) = .SingleShot
    ∧ RangeStart.fromBytes (0x00 : Fin 256) = .SingleShot
    ∧ ∀ b : Byte,
        (AlsStart.fromBytes b = .Continuous ↔ b.val = 0x03)
        ∧ (RangeStart.fromBytes b = .Continuous ↔ b.val = 0x03) := by
  decide

/-- C9: the range-error-code conversion succeeds exactly on the defined
datasheet values 0-8 and 11-15, and fails with InvalidEnumValue raw on
every other byte; in particular nibble 9 gives InvalidEnumValue 9 and
nibble 10 gives InvalidEnumValue 10, and the range-status register decode
(whose high nibble carries the code) fails on such payloads. -/
theorem rangeErrorCode_tryFrom_strict :
    RangeErrorCode.tryFrom 9 = .error (.InvalidEnumValue 9)
    ∧ RangeErrorCode.tryFrom 10 = .error (.InvalidEnumValue 10)
    ∧ RangeResultStatus.fromBytes (0x90 : Fin 256) = .error ()
    ∧ RangeResultStatus.fromBytes (0xA0 : Fin 256) = .error ()
    ∧ ∀ raw : Byte,
        (exceptOk (RangeErrorCode.tryFrom raw.val) = true ↔
          raw.val ∈ [0, 1, 2, 3, 4, 5, 6, 7, 8, 11, 12, 13, 14, 15])
        ∧ (RangeErrorCode.tryFrom raw.val = .error (.InvalidEnumValue raw.val) ↔
          raw.val ∉ [0, 1, 2, 3, 4, 5, 6, 7, 8, 11, 12, 13, 14, 15]) := by
  decide

/-- C10: AlsGain try_from succeeds on every byte, returning the variant
selected by the low three bits (the InvalidEnumValue arm in src/types.rs
is unreachable because the scrutinee is masked with 0b111), so the
AlsAnalogueGain register decode is total over all 256 byte values. -/
theorem alsGain_tryFrom_total :
    AlsGain.tryFrom (0 : Fin 256) = .ok .Gain20
    ∧ AlsGain.tryFrom (1 : Fin 256) = .ok .Gain10
    ∧ AlsGain.tryFrom (2 : Fin 256) = .ok .Gain5
    ∧ AlsGain.tryFrom (3 : Fin 256) = .ok .Gain2_5
    ∧ AlsGain.tryFrom (4 : Fin 256) = .ok .Gain1_67
    ∧ AlsGain.tryFrom (5 : Fin 256) = .ok .Gain1_25
    ∧ AlsGain.tryFrom (6 : Fin 256) = .ok .Gain1
    ∧ AlsGain.tryFrom (7 : Fin 256) = .ok .Gain40
    ∧ ∀ b : Byte,
        exceptOk (AlsGain.tryFrom b) = true
        ∧ AlsGain.tryFrom b = AlsGain.tryFrom (Fin.ofNat (b.val &&& 0b111))
        ∧ exceptOk (AlsAnalogueGain.fromBytes b) = true
        ∧ AlsAnalogueGain.fromBytes b = AlsGain.tryFrom b := by
  decide

/-- Value of the constructed byte: the underlying Nat modulo 256. -/
theorem finOfNat256_val (a : Nat) : (Fin.ofNat (n := 255) a).val = a % 256 := rfl

/-- C5: the ALS intermeasurement-period encoder succeeds on 10 ms with
byte 0x00 and on 2560 ms with byte 0xFF, fails with DurationTooShort on
9 ms and DurationTooLong on 2561 ms, and on every in-range period stores
the byte (ms + 5) / 10 - 1 (so the u8 cast never truncates). -/
theorem alsIntermeasurementPeriod_boundaries :
    AlsIntermeasurementPeriod.toBytes 10 = .ok (0x00 : Fin 256)
    ∧ AlsIntermeasurementPeriod.toBytes 2560 = .ok (0xFF : Fin 256)
    ∧ AlsIntermeasurementPeriod.toBytes 9 = .error .DurationTooShort
    ∧ AlsIntermeasurementPeriod.toBytes 2561 = .error .DurationTooLong
    ∧ ∀ ms : Nat, 10 ≤ ms → ms ≤ 2560 →
        ∃ b : Byte, AlsIntermeasurementPeriod.toBytes ms = .ok b
          ∧ b.val = (ms + 5) / 10 - 1 := by
  refine ⟨by decide, by decide, by decide, by decide, ?_⟩
  intro ms h1 h2
  refine ⟨Fin.ofNat ((ms + 5) / 10 - 1), ?_, ?_⟩
  · unfold AlsIntermeasurementPeriod.toBytes
    rw [if_neg (by omega), if_neg (by omega)]
  · rw [finOfNat256_val]
    omega

/-- C5 witness: encoding a 100 ms period stores byte 9. -/
theorem alsIntermeasurementPeriod_boundaries_witness :
    ∃ b : Byte, AlsIntermeasurementPeriod.toBytes 100 = .ok b ∧ b.val = 9 :=
  alsIntermeasurementPeriod_boundaries.2.2.2.2 100 (by decide) (by decide)

/-- C7: decode after encode is the identity for the representative codec
patterns: the mode-tag enums AlsStart and RangeStart, the bit-flag
RangeCheckEnables, and the two quantized-period codecs on every exact
multiple of 10 ms in 10..2560 ms (written (k + 1) * 10 for a byte k). -/
theorem codec_roundtrips :
    (∀ v : AlsStart, AlsStart.fromBytes (AlsStart.toBytes v) = v)
    ∧ (∀ v : RangeStart, RangeStart.fromBytes (RangeStart.toBytes v) = v)
    ∧ (∀ v : RangeCheckEnables, RangeCheckEnables.fromBytes (RangeCheckEnables.toBytes v) = v)
    ∧ (∀ k : Fin 256,
        Except.map AlsIntermeasurementPeriod.fromBytes
            (AlsIntermeasurementPeriod.toBytes ((k.val + 1) * 10))
          = .ok ((k.val + 1) * 10)
        ∧ RangeIntermeasurementPeriod.fromBytes
            (RangeIntermeasurementPeriod.toBytes (((k.val : Int) + 1) * 10))
          = ((k.val : Int) + 1) * 10) := by
  refine ⟨?_, ?_, ?_, by decide⟩
  · intro v
    cases v <;> decide
  · intro v
    cases v <;> decide
  · rintro ⟨a, b, c⟩
    cases a <;> cases b <;> cases c <;> decide

/-- C3 counterexample: the payload 0x36 0x78 0xA8 0xC0 encodes year-offset
3, month 6, day 15 and a tick count of 43200, yet its decode is not
2013-06-15T12:00:00 — the u16 doubling of 43200 wraps to 20864 seconds,
giving 05:47:44. -/
theorem moduleTimestamp_tick43200_not_noon :
    ModuleTimestamp.timeValue (0xA8 : Fin 256) (0xC0 : Fin 256) = 43200
    ∧ ModuleTimestamp.fromBytes (0x36 : Fin 256) (0x78 : Fin 256) (0xA8 : Fin 256) (0xC0 : Fin 256)
        = .ok ⟨2013, 6, 15, 5, 47, 44⟩
    ∧ ModuleTimestamp.fromBytes (0x36 : Fin 256) (0x78 : Fin 256) (0xA8 : Fin 256) (0xC0 : Fin 256)
        ≠ .ok ⟨2013, 6, 15, 12, 0, 0⟩ := by
  decide

/-- C3 (amended): decoding bytes 0x0F 0x08 0x1B 0xBC (year offset 0,
month 15) returns InvalidTimestamp; and decoding any 4-byte input that
encodes year-offset 3, month 6, day 15 and a 16-bit tick count of 21600
(being 43200 seconds since midnight) returns 2013-06-15T12:00:00. -/
theorem moduleTimestamp_spec_examples :
    ModuleTimestamp.fromBytes (0x0F : Fin 256) (0x08 : Fin 256) (0x1B : Fin 256) (0xBC : Fin 256)
        = .error .InvalidTimestamp
    ∧ ∀ b1 b2 b3 : Byte, b1.val >>> 3 = 15 → ModuleTimestamp.timeValue b2 b3 = 21600 →
        ModuleTimestamp.fromBytes (0x36 : Fin 256) b1 b2 b3 = .ok ⟨2013, 6, 15, 12, 0, 0⟩ := by
  refine ⟨by decide, ?_⟩
  intro b1 b2 b3 h1 h2
  have hl2 := b2.isLt
  have hl3 := b3.isLt
  unfold ModuleTimestamp.timeValue at h2
  have hb2 : b2.val = 84 := by omega
  have hb3 : b3.val = 96 := by omega
  simp only [ModuleTimestamp.fromBytes, ModuleTimestamp.timeValue, hb2, hb3, h1]
  decide

/-- C3 witness: the concrete payload 0x36 0x78 0x54 0x60 decodes to
2013-06-15T12:00:00. -/
theorem moduleTimestamp_spec_examples_witness :
    ModuleTimestamp.fromBytes (0x36 : Fin 256) (0x78 : Fin 256) (0x54 : Fin 256) (0x60 : Fin 256)
      = .ok ⟨2013, 6, 15, 12, 0, 0⟩ :=
  moduleTimestamp_spec_examples.2 (0x78 : Fin 256) (0x54 : Fin 256) (0x60 : Fin 256)
    (by decide) (by decide)

/-- C6 (evaluation at the failing input): for tick count 32768 the doubling
performed at type u16 leaves the u16 range — the mathematical product is
65536 — so the release-semantics embedding wraps to 0 seconds and decodes
to midnight; under overflow checks the source panics instead. The
seconds-since-midnight computation is therefore not overflow-free. -/
theorem moduleTimestamp_doubling_overflow :
    ModuleTimestamp.tickDoublingOverflows (0x80 : Fin 256) (0x00 : Fin 256) = true
    ∧ ModuleTimestamp.timeValue (0x80 : Fin 256) (0x00 : Fin 256) * 2 = 65536
    ∧ ModuleTimestamp.fromBytes (0x36 : Fin 256) (0x78 : Fin 256) (0x80 : Fin 256) (0x00 : Fin 256)
        = .ok ⟨2013, 6, 15, 0, 0, 0⟩ := by
  decide

/-- C4 counterexample: the max-convergence-time encoder cannot fail and
clamps — encoding 100 ms (outside its 1..63 ms span) succeeds with byte 63,
the same byte as encoding 63 ms, instead of returning a range error; the
range intermeasurement-period encoder likewise clamps 5000 ms to 0xFF. -/
theorem rangeDuration_encoders_clamp :
    RangeMaxConvergenceTime.toBytes 100 = (63 : Fin 256)
    ∧ RangeMaxConvergenceTime.toBytes 100 = RangeMaxConvergenceTime.toBytes 63
    ∧ RangeIntermeasurementPeriod.toBytes 5000 = (0xFF : Fin 256)
    ∧ RangeIntermeasurementPeriod.toBytes 5000 = RangeIntermeasurementPeriod.toBytes 2560 := by
  decide

/-- C4 (amended): only the ALS intermeasurement-period encoder reports
range errors — DurationTooShort exactly below 10 ms and DurationTooLong
exactly above 2560 ms; the range intermeasurement-period and
max-convergence-time encoders are infallible and clamp instead, every
encoded byte decoding back into the representable span (10..2560 ms,
respectively 1..63 ms). -/
theorem duration_encoder_range_policy :
    (∀ ms : Nat,
        (AlsIntermeasurementPeriod.toBytes ms = .error .DurationTooShort ↔ ms < 10)
        ∧ (AlsIntermeasurementPeriod.toBytes ms = .error .DurationTooLong ↔ 2560 < ms))
    ∧ (∀ ms : Int,
        1 ≤ RangeMaxConvergenceTime.fromBytes (RangeMaxConvergenceTime.toBytes ms)
        ∧ RangeMaxConvergenceTime.fromBytes (RangeMaxConvergenceTime.toBytes ms) ≤ 63)
    ∧ (∀ ms : Int,
        10 ≤ RangeIntermeasurementPeriod.fromBytes (RangeIntermeasurementPeriod.toBytes ms)
        ∧ RangeIntermeasurementPeriod.fromBytes (RangeIntermeasurementPeriod.toBytes ms) ≤ 2560) := by
  refine ⟨?_, ?_, ?_⟩
  · intro ms
    unfold AlsIntermeasurementPeriod.toBytes
    split_ifs with h1 h2 <;> refine ⟨⟨?_, ?_⟩, ⟨?_, ?_⟩⟩ <;> simp_all <;> omega
  · intro ms
    have h1 : (1 : Int) ≤ min (max ms 1) 63 := le_min (le_max_right ms 1) (by norm_num)
    have h2 : min (max ms 1) 63 ≤ 63 := min_le_right _ _
    unfold RangeMaxConvergenceTime.fromBytes RangeMaxConvergenceTime.toBytes
    rw [finOfNat256_val]
    omega
  · intro ms
    have h1 : (0 : Int) ≤ min (max (Int.tdiv ms 10 - 1) 0) 255 :=
      le_min (le_max_right _ 0) (by norm_num)
    have h2 : min (max (Int.tdiv ms 10 - 1) 0) 255 ≤ 255 := min_le_right _ _
    unfold RangeIntermeasurementPeriod.fromBytes RangeIntermeasurementPeriod.toBytes
    rw [finOfNat256_val]
    omega

/-- C1: read_register performs exactly one write-then-read exchange — the
2-byte big-endian address frame written, exactly the register's payload
length read — and classifies the outcome exhaustively and exclusively:
BusError exactly when the transport faults, DeserializationError exactly
when the transport succeeds and decode rejects the payload, and the
decoded value exactly when both succeed. -/
theorem read_register_spec {V E : Type} (d : Device) (R : ReadableReg V E)
    (i2c : I2cModel) :
    (d.read_register R i2c).2 = [BusOp.writeRead d.address (u16BeBytes R.id) R.len]
    ∧ ((d.read_register R i2c).1 = .error .BusError ↔
        i2c.write_read d.address (u16BeBytes R.id) R.len = .error ())
    ∧ ((d.read_register R i2c).1 = .error .DeserializationError ↔
        ∃ buf, i2c.write_read d.address (u16BeBytes R.id) R.len = .ok buf
          ∧ ∃ e, R.from_bytes buf = .error e)
    ∧ (∀ v : V, (d.read_register R i2c).1 = .ok v ↔
        ∃ buf, i2c.write_read d.address (u16BeBytes R.id) R.len = .ok buf
          ∧ R.from_bytes buf = .ok v) := by
  rcases hbus : i2c.write_read d.address (u16BeBytes R.id) R.len with f | buf
  · cases f
    have hres : d.read_register R i2c
        = (.error .BusError, [BusOp.writeRead d.address (u16BeBytes R.id) R.len]) := by
      simp [Device.read_register, hbus]
    simp [hres, hbus]
  · rcases hdec : R.from_bytes buf with e | v
    · have hres : d.read_register R i2c
          = (.error .DeserializationError,
             [BusOp.writeRead d.address (u16BeBytes R.id) R.len]) := by
        simp [Device.read_register, hbus, hdec]
      simp [hres, hbus, hdec]
    · have hres : d.read_register R i2c
          = (.ok v, [BusOp.writeRead d.address (u16BeBytes R.id) R.len]) := by
        simp [Device.read_register, hbus, hdec]
      simp [hres, hbus, hdec]

/-- C2: write_register encodes first — on encode failure it returns
SerializationError and performs zero bus operations; on encode success it
performs exactly one bus transaction of two consecutive write frames (the
2-byte big-endian address frame then the payload) and returns BusError
exactly when that transaction faults and unit exactly when it succeeds. -/
theorem write_register_spec {V E : Type} (d : Device) (R : WritableReg V E)
    (value : V) (i2c : I2cModel) :
    ((∃ e, R.to_bytes value = .error e) →
        (d.write_register R value i2c).1 = .error .SerializationError
        ∧ (d.write_register R value i2c).2 = [])
    ∧ (∀ payload, R.to_bytes value = .ok payload →
        (d.write_register R value i2c).2
            = [BusOp.transact d.address [u16BeBytes R.id, payload]]
        ∧ ((d.write_register R value i2c).1 = .error .BusError ↔
            i2c.transaction d.address [u16BeBytes R.id, payload] = .error ())
        ∧ ((d.write_register R value i2c).1 = .ok () ↔
            i2c.transaction d.address [u16BeBytes R.id, payload] = .ok ())
        ∧ (d.write_register R value i2c).1 ≠ .error .SerializationError) := by
  constructor
  · rintro ⟨e, he⟩
    unfold Device.write_register
    simp [he]
  · intro payload hp
    unfold Device.write_register
    rcases htr : i2c.transaction d.address [u16BeBytes R.id, payload] with f | u
    · cases f
      simp [hp, htr]
    · cases u
      simp [hp, htr]

/-- C2 witness: writing a 9 ms ALS intermeasurement period — whose encode
fails with DurationTooShort — yields SerializationError and an empty bus
trace, against a transport that would accept anything; and writing a 100 ms
period (encode succeeds with byte 9) against the same transport performs
exactly the one two-frame transaction and succeeds. -/
theorem write_register_spec_witness :
    ((Device.write_register ⟨0x29⟩
        ⟨0x003E, fun ms => Except.map (fun b => [b]) (AlsIntermeasurementPeriod.toBytes ms)⟩
        9 ⟨fun _ _ _ => .ok [], fun _ _ => .ok ()⟩).1 = .error .SerializationError
      ∧ (Device.write_register ⟨0x29⟩
        ⟨0x003E, fun ms => Except.map (fun b => [b]) (AlsIntermeasurementPeriod.toBytes ms)⟩
        9 ⟨fun _ _ _ => .ok [], fun _ _ => .ok ()⟩).2 = [])
    ∧ (Device.write_register ⟨0x29⟩
        ⟨0x003E, fun ms => Except.map (fun b => [b]) (AlsIntermeasurementPeriod.toBytes ms)⟩
        100 ⟨fun _ _ _ => .ok [], fun _ _ => .ok ()⟩).2
      = [BusOp.transact 0x29 [u16BeBytes 0x003E, [(9 : Fin 256)]]] :=
  ⟨(write_register_spec _ _ _ _).1 ⟨.DurationTooShort, rfl⟩,
   ((write_register_spec _ _ _ _).2 [(9 : Fin 256)] (by decide)).1⟩
